/-
  Verification of the liveness-monitoring state machine in
  custom_components/ecoflow_cloud/sensor.py (classes StatusSensorEntity and
  QuotasStatusSensorEntity).

  Shallow embedding conventions:
  * timestamps and elapsed-second values (Python floats from
    `total_seconds()`) are modelled as rationals (ℚ);
  * `self._online` is an integer (the source initialises it to 0, assigns
    0/1 in `_update_status`, and assigns the reply field in
    `__get_reply_update`, always comparing with `== 1` / `== 0`);
  * each handler is a pure function from the mutable entity state (plus the
    clock values it reads) to the new state paired with the list of
    externally visible effects it performs, in order: `async_write_ha_state`
    calls (publish), `self._client.reconnect()` calls, and
    `send_get_message` calls;
  * Python dynamic dispatch of `self._update_status` is modelled by
    parametrising the shared handlers over the refresh action, then
    instantiating with the passive action (`update_status`) and the active
    override (`quotas_update_status`);
  * the reply handler `__get_reply_update` indexes `data[0]` and dict keys
    without guards, so it is embedded as an `Except`-valued function whose
    error constructor records the Python exception that the corresponding
    access would raise (IndexError / KeyError).
-/
import Mathlib

namespace EcoflowStatus

/-- `StatusSensorEntity.DEADLINE_PHASE = 10`. -/
def DEADLINE_PHASE : ℤ := 10

/-- `StatusSensorEntity.CHECK_PHASES = [2, 4, 6]`. -/
def CHECK_PHASES : List ℤ := [2, 4, 6]

/-- `StatusSensorEntity.CONNECT_PHASES = [3, 5, 7]`. -/
def CONNECT_PHASES : List ℤ := [3, 5, 7]

/-- `self.__check_interval_sec = 30` (seconds). -/
def checkIntervalSec : ℚ := 30

/-- The mutable state of one `StatusSensorEntity` instance: `self._online`,
`self._attr_native_value`, and the `self._attrs` ordered dict
(`ATTR_STATUS_SN`, `ATTR_STATUS_DATA_LAST_UPDATE`, `ATTR_STATUS_UPDATES`,
`ATTR_STATUS_LAST_UPDATE`, `ATTR_STATUS_RECONNECTS`, `ATTR_STATUS_PHASE`). -/
structure MonitorState where
  online : ℤ
  nativeValue : String
  sn : String
  dataLastUpdate : ℚ
  updates : ℕ
  lastUpdate : Option ℚ
  reconnects : ℕ
  phase : ℤ
deriving DecidableEq

/-- Externally visible side effects a handler performs, in program order. -/
inductive Effect where
  | publish
  | reconnect
  | sendGetMessage
deriving DecidableEq

/-- `StatusSensorEntity.__init__`: `_online = 0`, counters zero, phase 0,
`ATTR_STATUS_LAST_UPDATE = None`, `ATTR_STATUS_DATA_LAST_UPDATE` taken from
`client.data.params_time()`. The initial `_attr_native_value` is left by
the framework; we use the empty string. -/
def initState (deviceSn : String) (paramsTime : ℚ) : MonitorState :=
  { online := 0
    nativeValue := ""
    sn := deviceSn
    dataLastUpdate := paramsTime
    updates := 0
    lastUpdate := none
    reconnects := 0
    phase := 0 }

/-- The phase computation of `__check_status`:
`math.ceil(data_outdated_sec / self.__check_interval_sec)`. -/
def phaseOf (elapsedSec : ℚ) : ℤ :=
  ⌈elapsedSec / checkIntervalSec⌉

/-- `StatusSensorEntity._update_status(data_outdated_sec)`: compare the
elapsed seconds against `check_interval_sec * DEADLINE_PHASE`, set
`_online` / `_attr_native_value`, stamp `ATTR_STATUS_LAST_UPDATE = utcnow()`
(passed here as `now`), increment `ATTR_STATUS_UPDATES`, and call
`async_write_ha_state`. -/
def update_status (s : MonitorState) (now dataOutdatedSec : ℚ) :
    MonitorState × List Effect :=
  let s1 :=
    if dataOutdatedSec > checkIntervalSec * (DEADLINE_PHASE : ℚ) then
      { s with online := 0, nativeValue := "assume_offline" }
    else
      { s with online := 1, nativeValue := "assume_online" }
  ({ s1 with lastUpdate := some now, updates := s1.updates + 1 },
   [Effect.publish])

/-- `StatusSensorEntity.__check_status(now)`, parametrised over the
(dynamically dispatched) `self._update_status`: compute
`data_outdated_sec = now - params_time`, store the phase, and while
`_online == 1` either refresh the status (phase in `CHECK_PHASES` or at or
past `DEADLINE_PHASE`), or increment `ATTR_STATUS_RECONNECTS` and call
`self._client.reconnect()` (phase in `CONNECT_PHASES`). -/
def check_status_with
    (refresh : MonitorState → ℚ → ℚ → MonitorState × List Effect)
    (s : MonitorState) (now paramsTime : ℚ) : MonitorState × List Effect :=
  let dataOutdatedSec := now - paramsTime
  let phase := phaseOf dataOutdatedSec
  let s1 := { s with phase := phase }
  if s1.online = 1 then
    if phase ∈ CHECK_PHASES ∨ phase ≥ DEADLINE_PHASE then
      refresh s1 now dataOutdatedSec
    else if phase ∈ CONNECT_PHASES then
      ({ s1 with reconnects := s1.reconnects + 1 }, [Effect.reconnect])
    else
      (s1, [])
  else
    (s1, [])

/-- `StatusSensorEntity.__params_update(data)`, parametrised over the
dispatched `self._update_status`: store
`ATTR_STATUS_DATA_LAST_UPDATE = params_time()`, run `_update_status(0)` when
`_online == 0`, then always `async_write_ha_state()`. -/
def params_update_with
    (refresh : MonitorState → ℚ → ℚ → MonitorState × List Effect)
    (s : MonitorState) (now paramsTime : ℚ) : MonitorState × List Effect :=
  let s1 := { s with dataLastUpdate := paramsTime }
  let r := if s1.online = 0 then refresh s1 now 0 else (s1, [])
  (r.1, r.2 ++ [Effect.publish])

/-- The passive monitor tick handler (`StatusSensorEntity.__check_status`). -/
def check_status (s : MonitorState) (now paramsTime : ℚ) :
    MonitorState × List Effect :=
  check_status_with update_status s now paramsTime

/-- The passive monitor data-arrival handler
(`StatusSensorEntity.__params_update`). -/
def params_update (s : MonitorState) (now paramsTime : ℚ) :
    MonitorState × List Effect :=
  params_update_with update_status s now paramsTime

/-- `QuotasStatusSensorEntity._update_status(update_delta_sec)` (the active
override): increment `ATTR_STATUS_UPDATES` and send the
`latestQuotas` get-message; `_online`, `_attr_native_value` and
`ATTR_STATUS_LAST_UPDATE` are untouched and nothing is published. -/
def quotas_update_status (s : MonitorState) (_now _updateDeltaSec : ℚ) :
    MonitorState × List Effect :=
  ({ s with updates := s.updates + 1 }, [Effect.sendGetMessage])

/-- The active monitor tick handler: inherited `__check_status` with the
overridden `_update_status`. -/
def quotas_check_status (s : MonitorState) (now paramsTime : ℚ) :
    MonitorState × List Effect :=
  check_status_with quotas_update_status s now paramsTime

/-- The active monitor data-arrival handler: inherited `__params_update`
with the overridden `_update_status`. -/
def quotas_params_update (s : MonitorState) (now paramsTime : ℚ) :
    MonitorState × List Effect :=
  params_update_with quotas_update_status s now paramsTime

/-- The `d["data"]` sub-dict of a reply, with each key optional so that a
missing key can be mapped to the KeyError the source would raise. -/
structure ReplyInner where
  online : Option ℤ
  sn : Option String
deriving DecidableEq

/-- One element of the reply batch delivered to
`QuotasStatusSensorEntity.__get_reply_update`. -/
structure ReplyMsg where
  operateType : Option String
  data : Option ReplyInner
deriving DecidableEq

/-- The Python exception an unguarded access in `__get_reply_update` would
raise. -/
inductive PyError where
  | indexError
  | keyError
deriving DecidableEq

/-- `QuotasStatusSensorEntity.__get_reply_update(data)`: read `data[0]`
(IndexError on an empty batch), read `d["operateType"]` (KeyError if
missing); if it equals `"latestQuotas"`, set `_online` from
`d["data"]["online"]` (KeyError if missing), stamp
`ATTR_STATUS_LAST_UPDATE = utcnow()` (passed as `now`), then branch on
`_online == 1` to adopt `d["data"]["sn"]` and display "online", or display
"offline"; finally publish. A batch whose first element carries any other
`operateType` falls through with no state change and no effect. -/
def get_reply_update (s : MonitorState) (now : ℚ) (data : List ReplyMsg) :
    Except PyError (MonitorState × List Effect) :=
  match data with
  | [] => Except.error PyError.indexError
  | d :: _ =>
    match d.operateType with
    | none => Except.error PyError.keyError
    | some op =>
      if op = "latestQuotas" then
        match d.data with
        | none => Except.error PyError.keyError
        | some inner =>
          match inner.online with
          | none => Except.error PyError.keyError
          | some onl =>
            let s1 := { s with online := onl, lastUpdate := some now }
            if onl = 1 then
              match inner.sn with
              | none => Except.error PyError.keyError
              | some snVal =>
                Except.ok
                  ({ s1 with sn := snVal, nativeValue := "online" },
                   [Effect.publish])
            else
              Except.ok ({ s1 with nativeValue := "offline" },
                         [Effect.publish])
      else
        Except.ok (s, [])

/-! ### Helper lemmas -/

/-- The passive refresh action never touches the stored phase. -/
lemma update_status_phase (s : MonitorState) (now e : ℚ) :
    ((update_status s now e).1).phase = s.phase := by
  simp only [update_status]
  split <;> rfl

/-- The passive refresh action never touches the reconnect counter. -/
lemma update_status_reconnects (s : MonitorState) (now e : ℚ) :
    ((update_status s now e).1).reconnects = s.reconnects := by
  simp only [update_status]
  split <;> rfl

/-- The passive refresh action never touches the last-data timestamp. -/
lemma update_status_dataLastUpdate (s : MonitorState) (now e : ℚ) :
    ((update_status s now e).1).dataLastUpdate = s.dataLastUpdate := by
  simp only [update_status]
  split <;> rfl

/-- Whatever refresh strategy it dispatches to, a tick stores
`phaseOf (now - paramsTime)` provided the strategy preserves the phase. -/
lemma check_status_with_phase
    (refresh : MonitorState → ℚ → ℚ → MonitorState × List Effect)
    (hr : ∀ s now e, ((refresh s now e).1).phase = s.phase)
    (s : MonitorState) (now paramsTime : ℚ) :
    ((check_status_with refresh s now paramsTime).1).phase =
      phaseOf (now - paramsTime) := by
  simp only [check_status_with]
  split
  · split
    · rw [hr]
    · split <;> rfl
  · rfl

/-- `phaseOf` is monotone in the elapsed time. -/
lemma phaseOf_mono {e e' : ℚ} (h : e ≤ e') : phaseOf e ≤ phaseOf e' := by
  unfold phaseOf
  have h30 : (0 : ℚ) < checkIntervalSec := by norm_cast
  exact Int.ceil_le_ceil (div_le_div_of_nonneg_right h h30.le)

/-! ### Claim theorems -/

/-- C1: on every passive-monitor tick the stored phase equals
`ceil(elapsed / CheckInterval)` with `CheckInterval = 30`, where elapsed is
the seconds since the last telemetry data arrival; and within one silence
episode (same `params_time`, later tick time) the stored phase is
non-decreasing. -/
theorem c1_phase_formula :
    (∀ (s : MonitorState) (now paramsTime : ℚ),
        ((check_status s now paramsTime).1).phase =
          ⌈(now - paramsTime) / 30⌉) ∧
    (∀ (s s' : MonitorState) (now now' paramsTime : ℚ), now ≤ now' →
        ((check_status s now paramsTime).1).phase ≤
          ((check_status s' now' paramsTime).1).phase) := by
  have hstore : ∀ (s : MonitorState) (now paramsTime : ℚ),
      ((check_status s now paramsTime).1).phase =
        phaseOf (now - paramsTime) :=
    fun s now paramsTime =>
      check_status_with_phase update_status update_status_phase s now paramsTime
  constructor
  · intro s now paramsTime
    rw [hstore]
    rfl
  · intro s s' now now' paramsTime h
    rw [hstore, hstore]
    exact phaseOf_mono (by linarith)

/-- C1 witness: at concrete clock values 90 and 120 with last data at 0. -/
theorem c1_phase_formula_witness :
    ((check_status (initState "sn" 0) 90 0).1).phase ≤
      ((check_status (initState "sn" 0) 120 0).1).phase :=
  c1_phase_formula.2 (initState "sn" 0) (initState "sn" 0) 90 120 0
    (by norm_num)

/-- C2: every passive status-refresh results in Offline
(`_online = 0`, value "assume_offline") exactly when the elapsed seconds
strictly exceed `CheckInterval * DEADLINE_PHASE = 300`, and otherwise in
Online; in particular 300 s elapsed leaves the device Online and 301 s sets
it Offline. -/
theorem c2_refresh_deadline :
    (checkIntervalSec * (DEADLINE_PHASE : ℚ) = 300) ∧
    (∀ (s : MonitorState) (now e : ℚ),
        (((update_status s now e).1).online = 0 ∧
            ((update_status s now e).1).nativeValue = "assume_offline") ↔
          checkIntervalSec * (DEADLINE_PHASE : ℚ) < e) ∧
    (∀ (s : MonitorState) (now : ℚ),
        ((update_status s now 300).1).online = 1 ∧
          ((update_status s now 301).1).online = 0) := by
  refine ⟨by norm_num [checkIntervalSec, DEADLINE_PHASE], ?_, ?_⟩
  · intro s now e
    simp only [update_status]
    split
    · next h => simpa using h
    · next h =>
      simp only [not_lt] at h
      constructor
      · rintro ⟨h0, -⟩
        simp at h0
      · intro hlt
        exact absurd hlt (not_lt.mpr h)
  · intro s now
    constructor
    · norm_num [update_status, checkIntervalSec, DEADLINE_PHASE]
    · norm_num [update_status, checkIntervalSec, DEADLINE_PHASE]

/-- A concrete state in which the device is currently assumed online. -/
def onlineState : MonitorState :=
  { initState "sn" 0 with online := 1, nativeValue := "assume_online" }

/-- The state left behind when `onlineState` receives an offline
`latestQuotas` reply at time 5. -/
def offlineReplyState : MonitorState :=
  { onlineState with
    online := 0
    lastUpdate := some 5
    nativeValue := "offline" }

/-- C3 counterexample: in the active monitor a data-arrival event while the
device is not Online (here the freshly constructed state, `_online = 0`)
does not declare it back Online within the same event — the overridden
refresh only sends a request, so `_online` is still not 1 afterwards. -/
theorem c3_counterexample :
    ((quotas_params_update (initState "sn" 0) 100 50).1).online ≠ 1 := by
  decide

/-- C3 amended: in both monitors a data arrival records the new last-data
timestamp and, when the state is not Online, runs the status-refresh action
within the same event (the update counter increments); in the passive
monitor this declares the device back Online with no tick delay, but in the
active monitor `_online` is unchanged — only a `latestQuotas` request is
sent, and Online can only be declared when its reply arrives. -/
theorem c3_data_arrival :
    (∀ (s : MonitorState) (now paramsTime : ℚ),
        ((params_update s now paramsTime).1).dataLastUpdate = paramsTime ∧
        ((quotas_params_update s now paramsTime).1).dataLastUpdate
          = paramsTime) ∧
    (∀ (s : MonitorState) (now paramsTime : ℚ), s.online = 0 →
        ((params_update s now paramsTime).1).online = 1 ∧
        ((params_update s now paramsTime).1).updates = s.updates + 1) ∧
    (∀ (s : MonitorState) (now paramsTime : ℚ), s.online = 0 →
        ((quotas_params_update s now paramsTime).1).online = s.online ∧
        ((quotas_params_update s now paramsTime).1).updates = s.updates + 1 ∧
        Effect.sendGetMessage ∈ (quotas_params_update s now paramsTime).2) := by
  refine ⟨?_, ?_, ?_⟩
  · intro s now paramsTime
    constructor
    · simp only [params_update, params_update_with]
      split_ifs
      · rw [update_status_dataLastUpdate]
      · rfl
    · simp only [quotas_params_update, params_update_with,
        quotas_update_status]
      split_ifs <;> rfl
  · intro s now paramsTime h
    simp only [params_update, params_update_with]
    split_ifs
    constructor
    · norm_num [update_status, checkIntervalSec, DEADLINE_PHASE]
    · norm_num [update_status, checkIntervalSec, DEADLINE_PHASE]
  · intro s now paramsTime h
    simp only [quotas_params_update, params_update_with, quotas_update_status]
    split_ifs
    exact ⟨rfl, rfl, by simp⟩

/-- C3 witness: concrete instances of the amended claim with the freshly
constructed (not-Online) state. -/
theorem c3_data_arrival_witness :
    ((params_update (initState "sn" 0) 100 50).1).online = 1 ∧
    ((quotas_params_update (initState "sn" 0) 100 50).1).online =
      (initState "sn" 0).online :=
  ⟨(c3_data_arrival.2.1 (initState "sn" 0) 100 50 rfl).1,
   (c3_data_arrival.2.2 (initState "sn" 0) 100 50 rfl).1⟩

/-- C4: in the active monitor, `_online` is invariant under every timer
tick and every data-arrival event, and a reply whose first element carries
a `requestKind` other than "latestQuotas" leaves the whole state unchanged
— so `_online` only ever changes on arrival of a matching StatusReply. -/
theorem c4_active_online_invariant :
    (∀ (s : MonitorState) (now paramsTime : ℚ),
        ((quotas_check_status s now paramsTime).1).online = s.online) ∧
    (∀ (s : MonitorState) (now paramsTime : ℚ),
        ((quotas_params_update s now paramsTime).1).online = s.online) ∧
    (∀ (s : MonitorState) (now : ℚ) (op : String) (d : ReplyMsg)
        (rest : List ReplyMsg),
        d.operateType = some op → op ≠ "latestQuotas" →
        get_reply_update s now (d :: rest) = Except.ok (s, [])) := by
  refine ⟨?_, ?_, ?_⟩
  · intro s now paramsTime
    simp only [quotas_check_status, check_status_with, quotas_update_status]
    split_ifs <;> rfl
  · intro s now paramsTime
    simp only [quotas_params_update, params_update_with, quotas_update_status]
    split_ifs <;> rfl
  · intro s now op d rest hd hop
    simp only [get_reply_update, hd]
    rw [if_neg hop]

/-- C4 witness: a tick, a data arrival, and a non-matching reply at
concrete inputs, each leaving `_online` of the online state unchanged. -/
theorem c4_active_online_invariant_witness :
    ((quotas_check_status onlineState 90 0).1).online = onlineState.online ∧
    get_reply_update onlineState 5 [ReplyMsg.mk (some "setQuota") none] =
      Except.ok (onlineState, []) :=
  ⟨c4_active_online_invariant.1 onlineState 90 0,
   c4_active_online_invariant.2.2 onlineState 5 "setQuota"
     (ReplyMsg.mk (some "setQuota") none) [] rfl (by decide)⟩

/-- C5: a tick whose phase lies in CONNECT_PHASES while the device is
assumed online increments the reconnect counter by exactly 1, emits only
the reconnect effect, and leaves `_online` unchanged; a tick while not
online never changes the reconnect counter, and neither does a tick whose
phase is outside CONNECT_PHASES. -/
theorem c5_reconnect_counter :
    (∀ (s : MonitorState) (now paramsTime : ℚ), s.online = 1 →
        phaseOf (now - paramsTime) ∈ CONNECT_PHASES →
        ((check_status s now paramsTime).1).reconnects = s.reconnects + 1 ∧
        ((check_status s now paramsTime).1).online = s.online ∧
        (check_status s now paramsTime).2 = [Effect.reconnect]) ∧
    (∀ (s : MonitorState) (now paramsTime : ℚ), s.online ≠ 1 →
        ((check_status s now paramsTime).1).reconnects = s.reconnects) ∧
    (∀ (s : MonitorState) (now paramsTime : ℚ),
        phaseOf (now - paramsTime) ∉ CONNECT_PHASES →
        ((check_status s now paramsTime).1).reconnects = s.reconnects) := by
  refine ⟨?_, ?_, ?_⟩
  · intro s now paramsTime h1 hc
    have hc' : phaseOf (now - paramsTime) = 3 ∨
        phaseOf (now - paramsTime) = 5 ∨ phaseOf (now - paramsTime) = 7 := by
      simpa [CONNECT_PHASES] using hc
    have hnot : ¬(phaseOf (now - paramsTime) ∈ CHECK_PHASES ∨
        phaseOf (now - paramsTime) ≥ DEADLINE_PHASE) := by
      rcases hc' with h | h | h <;> rw [h] <;> decide
    simp only [check_status, check_status_with]
    split_ifs
    exact ⟨rfl, rfl, rfl⟩
  · intro s now paramsTime h
    simp only [check_status, check_status_with]
    split_ifs with hA hB hC <;> first | rfl | exact absurd hA h
  · intro s now paramsTime hnc
    simp only [check_status, check_status_with]
    split_ifs with hA hB
    · rw [update_status_reconnects]
    · rfl
    · rfl

/-- 90 seconds of silence fall in phase 3. -/
lemma phaseOf_ninety : phaseOf (90 - 0) = 3 := by
  norm_num [phaseOf, checkIntervalSec]

/-- 15 seconds of silence fall in phase 1, which is in no escalation set. -/
lemma phaseOf_fifteen : phaseOf (15 - 0) = 1 := by
  unfold phaseOf checkIntervalSec
  rw [Int.ceil_eq_iff]
  constructor <;> norm_num

/-- C5 witness: after 90 s of silence (phase 3 ∈ CONNECT_PHASES) while
online, the reconnect counter goes from 0 to 1 and `_online` stays 1. -/
theorem c5_reconnect_counter_witness :
    ((check_status onlineState 90 0).1).reconnects =
        onlineState.reconnects + 1 ∧
      ((check_status onlineState 90 0).1).online = onlineState.online :=
  ⟨(c5_reconnect_counter.1 onlineState 90 0 rfl
      (by rw [phaseOf_ninety]; decide)).1,
   (c5_reconnect_counter.1 onlineState 90 0 rfl
      (by rw [phaseOf_ninety]; decide)).2.1⟩

/-- C6 counterexample: an empty reply batch is not discarded silently — the
unguarded `data[0]` access raises IndexError out of the handler. -/
theorem c6_counterexample :
    get_reply_update (initState "sn" 0) 0 [] =
      Except.error PyError.indexError := rfl

/-- C6 amended: a reply batch whose first element carries a `requestKind`
other than "latestQuotas" is discarded silently with no state change and no
effect; but malformed replies are not discarded — an empty batch raises
IndexError, a first element without `operateType` raises KeyError, and a
matching first element whose `data`/`online` fields are missing raises
KeyError, so the handler does raise across its boundary on such inputs. -/
theorem c6_reply_errors :
    (∀ (s : MonitorState) (now : ℚ) (op : String) (d : ReplyMsg)
        (rest : List ReplyMsg),
        d.operateType = some op → op ≠ "latestQuotas" →
        get_reply_update s now (d :: rest) = Except.ok (s, [])) ∧
    (∀ (s : MonitorState) (now : ℚ),
        get_reply_update s now [] = Except.error PyError.indexError) ∧
    (∀ (s : MonitorState) (now : ℚ) (rest : List ReplyMsg),
        get_reply_update s now (ReplyMsg.mk none none :: rest) =
          Except.error PyError.keyError) ∧
    (∀ (s : MonitorState) (now : ℚ) (rest : List ReplyMsg),
        get_reply_update s now
            (ReplyMsg.mk (some "latestQuotas") none :: rest) =
          Except.error PyError.keyError) := by
  refine ⟨?_, fun s now => rfl, fun s now rest => rfl, fun s now rest => ?_⟩
  · intro s now op d rest hd hop
    simp only [get_reply_update, hd]
    rw [if_neg hop]
  · simp [get_reply_update]

/-- C6 witness: a well-formed but non-matching reply at concrete inputs is
discarded with the state unchanged. -/
theorem c6_reply_errors_witness :
    get_reply_update (initState "sn" 0) 3 [ReplyMsg.mk (some "ping") none] =
      Except.ok (initState "sn" 0, []) :=
  c6_reply_errors.1 (initState "sn" 0) 3 "ping"
    (ReplyMsg.mk (some "ping") none) [] rfl (by decide)

/-- C7 counterexample: the tick after 90 s of silence while online mutates
both the stored phase and the reconnect counter, yet performs no publish
(`async_write_ha_state` is not called on the reconnect path). -/
theorem c7_counterexample :
    ((check_status onlineState 90 0).1).reconnects ≠ onlineState.reconnects ∧
    ((check_status onlineState 90 0).1).phase ≠ onlineState.phase ∧
    Effect.publish ∉ (check_status onlineState 90 0).2 := by
  have h : check_status onlineState 90 0 =
      ({ onlineState with phase := 3, reconnects := 1 },
       [Effect.reconnect]) := by
    simp only [check_status, check_status_with, phaseOf_ninety]
    norm_num [CHECK_PHASES, CONNECT_PHASES, DEADLINE_PHASE, onlineState,
      initState]
  rw [h]
  refine ⟨by decide, by decide, by decide⟩

/-- C7 amended: only the passive status-refresh action and the
accepted-reply handler publish, exactly once each, and a data arrival
publishes at the end of its handler (in both strategies); a tick whose
phase lands in CONNECT_PHASES while online emits only the reconnect call, a
quiet online tick and a tick while not online emit nothing, and an
active-monitor tick never publishes at all — so phase stores and
reconnect-counter increments reach the observer only with a later event's
publish. -/
theorem c7_publish_discipline :
    (∀ (s : MonitorState) (now e : ℚ),
        (update_status s now e).2 = [Effect.publish]) ∧
    (∀ (s : MonitorState) (now : ℚ) (d : ReplyMsg) (rest : List ReplyMsg)
        (r : MonitorState × List Effect),
        d.operateType = some "latestQuotas" →
        get_reply_update s now (d :: rest) = Except.ok r →
        r.2 = [Effect.publish]) ∧
    (∀ (s : MonitorState) (now paramsTime : ℚ),
        ((params_update s now paramsTime).2).getLast? =
            some Effect.publish ∧
          ((quotas_params_update s now paramsTime).2).getLast? =
            some Effect.publish) ∧
    (∀ (s : MonitorState) (now paramsTime : ℚ), s.online = 1 →
        phaseOf (now - paramsTime) ∈ CONNECT_PHASES →
        (check_status s now paramsTime).2 = [Effect.reconnect]) ∧
    (∀ (s : MonitorState) (now paramsTime : ℚ), s.online = 1 →
        phaseOf (now - paramsTime) ∉ CHECK_PHASES →
        phaseOf (now - paramsTime) ∉ CONNECT_PHASES →
        phaseOf (now - paramsTime) < DEADLINE_PHASE →
        (check_status s now paramsTime).2 = []) ∧
    (∀ (s : MonitorState) (now paramsTime : ℚ), s.online ≠ 1 →
        (check_status s now paramsTime).2 = []) ∧
    (∀ (s : MonitorState) (now paramsTime : ℚ),
        Effect.publish ∉ (quotas_check_status s now paramsTime).2) := by
  refine ⟨?_, ?_, ?_, ?_, ?_, ?_, ?_⟩
  · intro s now e
    simp [update_status]
  · intro s now d rest r hd hok
    simp only [get_reply_update, hd, if_true] at hok
    split at hok
    · cases hok
    · split at hok
      · cases hok
      · split at hok
        · split at hok
          · cases hok
          · cases hok
            rfl
        · cases hok
          rfl
  · intro s now paramsTime
    constructor
    · simp only [params_update, params_update_with, update_status]
      split_ifs <;> rfl
    · simp only [quotas_params_update, params_update_with,
        quotas_update_status]
      split_ifs <;> rfl
  · intro s now paramsTime h1 hc
    have hc' : phaseOf (now - paramsTime) = 3 ∨
        phaseOf (now - paramsTime) = 5 ∨ phaseOf (now - paramsTime) = 7 := by
      simpa [CONNECT_PHASES] using hc
    have hnot : ¬(phaseOf (now - paramsTime) ∈ CHECK_PHASES ∨
        phaseOf (now - paramsTime) ≥ DEADLINE_PHASE) := by
      rcases hc' with h | h | h <;> rw [h] <;> decide
    simp only [check_status, check_status_with]
    split_ifs
    rfl
  · intro s now paramsTime h1 h2 h3 h4
    have hnot : ¬(phaseOf (now - paramsTime) ∈ CHECK_PHASES ∨
        phaseOf (now - paramsTime) ≥ DEADLINE_PHASE) := by
      push_neg
      exact ⟨h2, h4⟩
    simp only [check_status, check_status_with]
    split_ifs
    rfl
  · intro s now paramsTime h
    simp only [check_status, check_status_with]
    split_ifs with hA hB hC <;> first | rfl | exact absurd hA h
  · intro s now paramsTime
    simp only [quotas_check_status, check_status_with, quotas_update_status]
    split_ifs <;> simp

/-- C7 witness of the amended claim: at concrete inputs, the reconnect tick
emits only the reconnect effect, an accepted offline reply publishes
exactly once, a quiet online tick at 15 s (phase 1) emits nothing, and a
concrete active tick does not publish. -/
theorem c7_publish_discipline_witness :
    (check_status onlineState 90 0).2 = [Effect.reconnect] ∧
    ((offlineReplyState, [Effect.publish]) :
        MonitorState × List Effect).2 = [Effect.publish] ∧
    (check_status onlineState 15 0).2 = [] ∧
    Effect.publish ∉ (quotas_check_status onlineState 90 0).2 :=
  ⟨c7_publish_discipline.2.2.2.1 onlineState 90 0 rfl
      (by rw [phaseOf_ninety]; decide),
   c7_publish_discipline.2.1 onlineState 5
      (ReplyMsg.mk (some "latestQuotas") (some (ReplyInner.mk (some 0) none)))
      [] (offlineReplyState, [Effect.publish]) rfl
      (by simp [get_reply_update, offlineReplyState, onlineState, initState]),
   c7_publish_discipline.2.2.2.2.1 onlineState 15 0 rfl
      (by rw [phaseOf_fifteen]; decide)
      (by rw [phaseOf_fifteen]; decide)
      (by rw [phaseOf_fifteen]; decide),
   c7_publish_discipline.2.2.2.2.2.2 onlineState 90 0⟩

/-- C8 counterexample: the active monitor's status-refresh neither stamps
`ATTR_STATUS_LAST_UPDATE` (it stays `None` here) nor publishes. -/
theorem c8_counterexample :
    ((quotas_update_status (initState "sn" 0) 100 50).1).lastUpdate =
        (initState "sn" 0).lastUpdate ∧
      Effect.publish ∉ (quotas_update_status (initState "sn" 0) 100 50).2 :=
  ⟨rfl, by decide⟩

/-- C8 amended: every passive status-refresh stamps
`lastStatusUpdateAt = now`, increments the update counter by exactly 1 and
publishes exactly once; the active override increments the update counter
by exactly 1 but only sends the `latestQuotas` request — it leaves
`lastStatusUpdateAt` untouched and publishes nothing (the stamp and publish
happen later, when the matching reply arrives). -/
theorem c8_refresh_effects :
    (∀ (s : MonitorState) (now e : ℚ),
        ((update_status s now e).1).lastUpdate = some now ∧
        ((update_status s now e).1).updates = s.updates + 1 ∧
        (update_status s now e).2 = [Effect.publish]) ∧
    (∀ (s : MonitorState) (now e : ℚ),
        ((quotas_update_status s now e).1).updates = s.updates + 1 ∧
        ((quotas_update_status s now e).1).lastUpdate = s.lastUpdate ∧
        (quotas_update_status s now e).2 = [Effect.sendGetMessage]) := by
  constructor
  · intro s now e
    simp only [update_status]
    split_ifs <;> simp
  · intro s now e
    exact ⟨rfl, rfl, rfl⟩

/-- C9 counterexample: with the tick clock 30 s behind the last-data
timestamp (elapsed = -30), the stored phase is -1, not 0 — the source never
clamps `math.ceil(elapsed / 30)`. -/
theorem c9_counterexample :
    ((check_status (initState "sn" 30) 0 30).1).phase = -1 := by
  have hp : phaseOf (-30 : ℚ) = -1 := by
    unfold phaseOf checkIntervalSec
    rw [show ((-30 : ℚ) / 30) = ((-1 : ℤ) : ℚ) by norm_num]
    exact Int.ceil_intCast (-1)
  simp [check_status, check_status_with, hp, initState]

/-- C9 amended: a tick with non-positive elapsed time stores
`phase = ceil(elapsed / 30)` without raising, and that phase is never
positive; it is 0 exactly when -30 < elapsed ≤ 0, but for
elapsed ≤ -30 the stored phase is strictly negative (no clamp to 0). -/
theorem c9_negative_elapsed :
    (∀ (s : MonitorState) (now paramsTime : ℚ), now - paramsTime ≤ 0 →
        ((check_status s now paramsTime).1).phase =
          phaseOf (now - paramsTime) ∧
        ((check_status s now paramsTime).1).phase ≤ 0) ∧
    (∀ e : ℚ, -30 < e → e ≤ 0 → phaseOf e = 0) ∧
    (∀ e : ℚ, e ≤ -30 → phaseOf e < 0) := by
  have h30 : (0 : ℚ) < checkIntervalSec := by norm_num [checkIntervalSec]
  refine ⟨?_, ?_, ?_⟩
  · intro s now paramsTime h
    have hstore : ((check_status s now paramsTime).1).phase =
        phaseOf (now - paramsTime) :=
      check_status_with_phase update_status update_status_phase s now paramsTime
    refine ⟨hstore, ?_⟩
    rw [hstore]
    have h2 := div_le_div_of_nonneg_right h h30.le
    rw [zero_div] at h2
    exact Int.ceil_le.mpr (by exact_mod_cast h2)
  · intro e he1 he2
    unfold phaseOf checkIntervalSec
    rw [Int.ceil_eq_zero_iff, Set.mem_Ioc]
    constructor
    · rw [lt_div_iff₀ (by norm_num : (0:ℚ) < 30)]
      linarith
    · rw [div_nonpos_iff]
      right
      exact ⟨he2, by norm_num⟩
  · intro e he
    have hceil : phaseOf e ≤ -1 := by
      unfold phaseOf checkIntervalSec
      refine Int.ceil_le.mpr ?_
      rw [div_le_iff₀ (by norm_num : (0:ℚ) < 30)]
      push_cast
      linarith
    omega

/-- C9 witness: 5 s of clock skew at concrete inputs stores a non-positive
phase. -/
theorem c9_negative_elapsed_witness :
    ((check_status (initState "sn" 5) 0 5).1).phase ≤ 0 :=
  (c9_negative_elapsed.1 (initState "sn" 5) 0 5 (by norm_num)).2

/-- C10: the active reply handler examines only the first element of the
batch: whenever the first element's `operateType` is any string other than
"latestQuotas", the handler leaves the state unchanged and performs no
effect, regardless of the remaining elements — a matching reply at a later
position is never honored. -/
theorem c10_first_element_only :
    ∀ (s : MonitorState) (now : ℚ) (op : String) (d : ReplyMsg)
      (rest : List ReplyMsg),
      d.operateType = some op → op ≠ "latestQuotas" →
      get_reply_update s now (d :: rest) = Except.ok (s, []) := by
  intro s now op d rest hd hop
  simp only [get_reply_update, hd]
  rw [if_neg hop]

/-- C10 witness: a batch whose first element is a non-matching reply and
whose second element is a well-formed matching "latestQuotas" reply still
leaves the state unchanged. -/
theorem c10_first_element_only_witness :
    get_reply_update (initState "sn" 0) 7
        [ReplyMsg.mk (some "getQuota") none,
          ReplyMsg.mk (some "latestQuotas")
            (some (ReplyInner.mk (some 1) (some "X")))] =
      Except.ok (initState "sn" 0, []) :=
  c10_first_element_only (initState "sn" 0) 7 "getQuota"
    (ReplyMsg.mk (some "getQuota") none)
    [ReplyMsg.mk (some "latestQuotas")
      (some (ReplyInner.mk (some 1) (some "X")))]
    rfl (by decide)

end EcoflowStatus
